import Mathlib

/-!
Verification development for a flight-ticket CRUD service written in Go.

The embedding covers the core logic identified by the design spec:
airport-code validation, identifier and flight-number generation,
ticket construction (`models/ticket.go`), the create/update/cancel
HTTP handlers (`handlers/ticket.go`), and the Firestore storage
collaborator (`services/firestore.go`).

Modelling conventions:
* Go strings are modelled as Lean `String` (a list of characters).
  The service only manipulates ASCII data, where Go's byte-length
  `len` coincides with the character count and Go's
  `strings.ToUpper` coincides with the ASCII uppercasing modelled by
  `goToUpperChar` below.
* Go `time.Time` values are modelled by the `GoTime` record of the
  calendar/clock fields the service reads.  Every time value the
  service constructs is in UTC, so no location field is carried.
* Randomness (`rand.Intn`) and clock reads (`time.Now`) are modelled
  as explicit parameters: a `Fin n` for each `rand.Intn n` draw and a
  `GoTime` for each `time.Now` read.
* The Firestore document store is modelled as a function from
  document id to an optional ticket.
-/

/-- Model of the fields of Go `time.Time` that the service reads or
constructs.  All constructed values are UTC. -/
structure GoTime where
  year : Int
  month : Nat
  day : Nat
  hour : Nat
  minute : Nat
  second : Nat
  nsec : Nat
deriving DecidableEq, Repr

/-- Models Go `time.Date(y, mo, d, h, mi, 0, 0, time.UTC)` for
in-range arguments (the only way the service calls it). -/
def mkUTC (y : Int) (mo d h mi : Nat) : GoTime :=
  ⟨y, mo, d, h, mi, 0, 0⟩

/-- `FlightTicket` from `src/models/ticket.go`. -/
structure FlightTicket where
  confirmationID : String
  origin : String
  destination : String
  departureDate : GoTime
  departureTime : GoTime
  flightNumber : String
  passengers : Int
  createdAt : GoTime
  updatedAt : GoTime
  status : String
deriving DecidableEq, Repr

/-- `CreateTicketRequest` from `src/models/ticket.go`. -/
structure CreateTicketRequest where
  origin : String
  destination : String
  departureDate : String
  departureTime : String
  flightNumber : String
  passengers : Int
deriving DecidableEq, Repr

/-- `UpdateTicketRequest` from `src/models/ticket.go`. -/
structure UpdateTicketRequest where
  origin : String
  destination : String
  departureDate : String
  departureTime : String
  flightNumber : String
  passengers : Int
  status : String
deriving DecidableEq, Repr

/-- ASCII uppercase letter test (`'A'..'Z'`). -/
def isAsciiUpperChar (c : Char) : Bool :=
  65 ≤ c.toNat && c.toNat ≤ 90

/-- ASCII lowercase letter test (`'a'..'z'`). -/
def isAsciiLowerChar (c : Char) : Bool :=
  97 ≤ c.toNat && c.toNat ≤ 122

/-- ASCII letter test. -/
def isAsciiAlphaChar (c : Char) : Bool :=
  isAsciiUpperChar c || isAsciiLowerChar c

/-- ASCII digit test (`'0'..'9'`). -/
def isAsciiDigitChar (c : Char) : Bool :=
  48 ≤ c.toNat && c.toNat ≤ 57

/-- Models Go `strings.ToUpper` on a single character, restricted to
the ASCII fragment the service manipulates. -/
def goToUpperChar (c : Char) : Char :=
  if isAsciiLowerChar c then Char.ofNat (c.toNat - 32) else c

/-- Models Go `strings.ToUpper` on ASCII strings. -/
def goToUpperStr (s : String) : String :=
  ⟨s.data.map goToUpperChar⟩

/-- `ValidateAirportCode` from `src/models/ticket.go`:
`len(code) == 3 && strings.ToUpper(code) == code`.  (`len` is byte
length in Go; on the ASCII fragment it equals the character count.) -/
def ValidateAirportCode (code : String) : Bool :=
  code.data.length == 3 && goToUpperStr code == code

/-- The 36-character alphabet used by `GenerateConfirmationID`. -/
def confirmationCharset : List Char :=
  "ABCDEFGHIJKLMNOPQRSTUVWXYZ0123456789".data

/-- `GenerateConfirmationID` from `src/models/ticket.go`.  The six
`rand.Intn(36)` draws are passed explicitly as `r`. -/
def GenerateConfirmationID (r : Fin 6 → Fin 36) : String :=
  ⟨List.ofFn fun i =>
    confirmationCharset.get (Fin.cast (by decide : 36 = confirmationCharset.length) (r i))⟩

/-- Decimal digits of `n`, least significant first, as characters.
The first argument is recursion fuel; any fuel `≥ n` gives the full
expansion. -/
def natDigitsRev : Nat → Nat → List Char
  | 0, _ => []
  | _ + 1, 0 => []
  | fuel + 1, n => Char.ofNat (48 + n % 10) :: natDigitsRev fuel (n / 10)

/-- Models Go `fmt.Sprintf("%d", n)` for natural `n`. -/
def natToDecimalString (n : Nat) : String :=
  if n = 0 then "0" else ⟨(natDigitsRev n n).reverse⟩

/-- `GenerateFlightNumber` from `src/models/ticket.go`.  The
`rand.Intn(9000)` draw is passed explicitly as `r`; the generated
number is `r + 1000`. -/
def GenerateFlightNumber (airlineCode : String) (r : Fin 9000) : String :=
  let code := if airlineCode.data.length ≠ 2 then "AA" else airlineCode
  goToUpperStr code ++ natToDecimalString (r.val + 1000)

/-- `NewFlightTicket` from `src/models/ticket.go`.  `now` models the
`time.Now()` read; `ridx` and `rflight` model the random draws used
by `GenerateConfirmationID` and `GenerateFlightNumber`. -/
def NewFlightTicket (origin destination : String)
    (departureDate departureTime : GoTime) (flightNumber : String)
    (passengers : Int) (now : GoTime) (ridx : Fin 6 → Fin 36)
    (rflight : Fin 9000) : Option FlightTicket :=
  if !ValidateAirportCode origin || !ValidateAirportCode destination then
    none
  else
    let fn := if flightNumber = "" then GenerateFlightNumber "AA" rflight else flightNumber
    some {
      confirmationID := GenerateConfirmationID ridx
      origin := goToUpperStr origin
      destination := goToUpperStr destination
      departureDate := departureDate
      departureTime := departureTime
      flightNumber := goToUpperStr fn
      passengers := passengers
      createdAt := now
      updatedAt := now
      status := "CONFIRMED" }

/-- Leap-year rule used by Go's `time` package. -/
def isLeapYear (y : Int) : Bool :=
  y % 4 == 0 && (y % 100 != 0 || y % 400 == 0)

/-- Days in a month, as Go's `time` package computes it. -/
def daysInMonth (y : Int) (mo : Nat) : Nat :=
  if mo == 2 then (if isLeapYear y then 29 else 28)
  else if mo == 4 || mo == 6 || mo == 9 || mo == 11 then 30
  else 31

/-- Digit value of an ASCII digit character. -/
def digitVal (c : Char) : Nat := c.toNat - 48

/-- Models Go `time.Parse("2006-01-02", s)`: a four-digit year, a
two-digit month and a two-digit day separated by hyphens, with Go's
range checks on month and day.  On success Go returns midnight UTC of
that date. -/
def parseDate (s : String) : Option GoTime :=
  match s.data with
  | [y1, y2, y3, y4, '-', m1, m2, '-', d1, d2] =>
    if isAsciiDigitChar y1 && isAsciiDigitChar y2 && isAsciiDigitChar y3 &&
        isAsciiDigitChar y4 && isAsciiDigitChar m1 && isAsciiDigitChar m2 &&
        isAsciiDigitChar d1 && isAsciiDigitChar d2 then
      let y : Int := (1000 * digitVal y1 + 100 * digitVal y2 + 10 * digitVal y3 + digitVal y4 : Nat)
      let mo := 10 * digitVal m1 + digitVal m2
      let d := 10 * digitVal d1 + digitVal d2
      if 1 ≤ mo && mo ≤ 12 && 1 ≤ d && d ≤ daysInMonth y mo then
        some ⟨y, mo, d, 0, 0, 0, 0⟩
      else none
    else none
  | _ => none

/-- Models Go `time.Parse("15:04", s)`: a one- or two-digit hour and
a two-digit minute separated by a colon, with Go's range checks.  On
success Go returns that clock time on the zero date (January 1, year
0, UTC). -/
def parseClock (s : String) : Option GoTime :=
  match s.data with
  | [h1, h2, ':', m1, m2] =>
    if isAsciiDigitChar h1 && isAsciiDigitChar h2 && isAsciiDigitChar m1 &&
        isAsciiDigitChar m2 then
      let h := 10 * digitVal h1 + digitVal h2
      let mi := 10 * digitVal m1 + digitVal m2
      if h ≤ 23 && mi ≤ 59 then some ⟨0, 1, 1, h, mi, 0, 0⟩ else none
    else none
  | [h1, ':', m1, m2] =>
    if isAsciiDigitChar h1 && isAsciiDigitChar m1 && isAsciiDigitChar m2 then
      let h := digitVal h1
      let mi := 10 * digitVal m1 + digitVal m2
      if h ≤ 23 && mi ≤ 59 then some ⟨0, 1, 1, h, mi, 0, 0⟩ else none
    else none
  | _ => none

/-- A staged update value: Firestore field values are strings,
integers or timestamps in this service. -/
inductive FieldValue
  | s (v : String)
  | i (v : Int)
  | t (v : GoTime)
deriving DecidableEq, Repr

/-- A staged field update: Firestore field path paired with the new
value.  The handler's Go `map[string]interface{}` is modelled as an
association list in the order the handler stages fields (each branch
stages a distinct key, so the list has unique keys). -/
abbrev FieldUpdate := String × FieldValue

/-- The Firestore collection, keyed by confirmation id. -/
def Store := String → Option FlightTicket

/-- Models applying one `firestore.Update{Path, Value}` to a stored
ticket document: the Firestore field tags of `FlightTicket` map each
path to the corresponding struct field. -/
def applyField (tk : FlightTicket) (kv : FieldUpdate) : FlightTicket :=
  match kv.2 with
  | .s v =>
    if kv.1 = "origin" then { tk with origin := v }
    else if kv.1 = "destination" then { tk with destination := v }
    else if kv.1 = "flight_number" then { tk with flightNumber := v }
    else if kv.1 = "status" then { tk with status := v }
    else tk
  | .i v => if kv.1 = "passengers" then { tk with passengers := v } else tk
  | .t v =>
    if kv.1 = "departure_date" then { tk with departureDate := v }
    else if kv.1 = "departure_time" then { tk with departureTime := v }
    else if kv.1 = "updated_at" then { tk with updatedAt := v }
    else tk

/-- Models the Go map assignment `updates[k] = v`: replace the entry
for `k` if one exists, otherwise append it. -/
def setKey (ups : List FieldUpdate) (k : String) (v : FieldValue) : List FieldUpdate :=
  if ups.any (fun kv => kv.1 == k) then
    ups.map (fun kv => if kv.1 == k then (k, v) else kv)
  else ups ++ [(k, v)]

namespace FirestoreService

/-- `FirestoreService.CreateTicket` from `services/firestore.go`:
`Set` on the document keyed by the ticket's confirmation id. -/
def CreateTicket (tk : FlightTicket) (store : Store) : Store :=
  fun c => if c = tk.confirmationID then some tk else store c

/-- `FirestoreService.GetTicket` from `services/firestore.go`. -/
def GetTicket (confirmationID : String) (store : Store) : Option FlightTicket :=
  store confirmationID

/-- `FirestoreService.UpdateTicket` from `services/firestore.go`:
stamps `updates["updated_at"] = time.Now()` (the `now` parameter),
then applies the field updates to the existing document.  Firestore's
`Update` fails when the document does not exist, modelled by `none`. -/
def UpdateTicket (confirmationID : String) (updates : List FieldUpdate)
    (now : GoTime) (store : Store) : Option Store :=
  let ups := setKey updates "updated_at" (.t now)
  match store confirmationID with
  | none => none
  | some tk =>
    some fun c => if c = confirmationID then some (ups.foldl applyField tk) else store c

/-- `FirestoreService.DeleteTicket` from `services/firestore.go`: a
soft delete that calls `UpdateTicket` with
`{status: "CANCELLED", updated_at: time.Now()}`.  `now1` is the
`time.Now()` read in `DeleteTicket` itself and `now2` the one in
`UpdateTicket` (which overwrites the `updated_at` entry). -/
def DeleteTicket (confirmationID : String) (now1 now2 : GoTime)
    (store : Store) : Option Store :=
  UpdateTicket confirmationID
    [("status", .s "CANCELLED"), ("updated_at", .t now1)] now2 store

end FirestoreService

/-- Errors the create handler can report before or instead of a
successful write. -/
inductive CreateError
  | missingFields
  | invalidDateFormat
  | invalidTimeFormat
  | invalidAirportCodes
deriving DecidableEq, Repr

/-- Errors the update/cancel handlers can report. -/
inductive UpdateError
  | invalidOrigin
  | invalidDestination
  | invalidDateFormat
  | invalidTimeFormat
  | invalidStatus
  | nothingToUpdate
  | storeFailed
  | retrieveFailed
deriving DecidableEq, Repr

namespace TicketHandler

/-- Origin branch of `TicketHandler.UpdateTicket`
(`handlers/ticket.go`): a non-empty origin must pass
`ValidateAirportCode` and is staged as-is. -/
def stageOrigin (req : UpdateTicketRequest) (ups : List FieldUpdate) :
    Except UpdateError (List FieldUpdate) :=
  if req.origin = "" then .ok ups
  else if ValidateAirportCode req.origin then .ok (ups ++ [("origin", .s req.origin)])
  else .error .invalidOrigin

/-- Destination branch of `TicketHandler.UpdateTicket`. -/
def stageDestination (req : UpdateTicketRequest) (ups : List FieldUpdate) :
    Except UpdateError (List FieldUpdate) :=
  if req.destination = "" then .ok ups
  else if ValidateAirportCode req.destination then .ok (ups ++ [("destination", .s req.destination)])
  else .error .invalidDestination

/-- Departure-date branch of `TicketHandler.UpdateTicket`: a
non-empty date must parse as `YYYY-MM-DD` and the parsed timestamp is
staged. -/
def stageDate (req : UpdateTicketRequest) (ups : List FieldUpdate) :
    Except UpdateError (List FieldUpdate) :=
  if req.departureDate = "" then .ok ups
  else
    match parseDate req.departureDate with
    | none => .error .invalidDateFormat
    | some d => .ok (ups ++ [("departure_date", .t d)])

/-- Departure-time branch of `TicketHandler.UpdateTicket`: a
non-empty time must parse as `HH:MM`; it is combined with the
re-parsed request date when one was supplied, and with the current
wall-clock date (`now`, modelling `time.Now().UTC()`) otherwise. -/
def stageTime (req : UpdateTicketRequest) (now : GoTime) (ups : List FieldUpdate) :
    Except UpdateError (List FieldUpdate) :=
  if req.departureTime = "" then .ok ups
  else
    match parseClock req.departureTime with
    | none => .error .invalidTimeFormat
    | some c =>
      if req.departureDate ≠ "" then
        match parseDate req.departureDate with
        | none => .error .invalidDateFormat
        | some d =>
          .ok (ups ++ [("departure_time", .t (mkUTC d.year d.month d.day c.hour c.minute))])
      else
        .ok (ups ++ [("departure_time", .t (mkUTC now.year now.month now.day c.hour c.minute))])

/-- Flight-number branch of `TicketHandler.UpdateTicket`: staged
verbatim when non-empty, with no validation. -/
def stageFlightNumber (req : UpdateTicketRequest) (ups : List FieldUpdate) :
    Except UpdateError (List FieldUpdate) :=
  if req.flightNumber = "" then .ok ups
  else .ok (ups ++ [("flight_number", .s req.flightNumber)])

/-- Passengers branch of `TicketHandler.UpdateTicket`: staged only
when strictly positive, never rejected. -/
def stagePassengers (req : UpdateTicketRequest) (ups : List FieldUpdate) :
    Except UpdateError (List FieldUpdate) :=
  if 0 < req.passengers then .ok (ups ++ [("passengers", .i req.passengers)])
  else .ok ups

/-- Status branch of `TicketHandler.UpdateTicket`: a non-empty status
must be one of the three enumerated values and is staged verbatim. -/
def stageStatus (req : UpdateTicketRequest) (ups : List FieldUpdate) :
    Except UpdateError (List FieldUpdate) :=
  if req.status = "" then .ok ups
  else if req.status ≠ "CONFIRMED" && req.status ≠ "CANCELLED" && req.status ≠ "PENDING" then
    .error .invalidStatus
  else .ok (ups ++ [("status", .s req.status)])

/-- The staging phase of `TicketHandler.UpdateTicket`
(`handlers/ticket.go` lines 190-295): the per-field branches run in
field-declaration order, each either skipping, appending to the
updates map, or aborting the whole request. -/
def buildUpdates (req : UpdateTicketRequest) (now : GoTime) :
    Except UpdateError (List FieldUpdate) :=
  match stageOrigin req [] with
  | .error e => .error e
  | .ok u1 =>
    match stageDestination req u1 with
    | .error e => .error e
    | .ok u2 =>
      match stageDate req u2 with
      | .error e => .error e
      | .ok u3 =>
        match stageTime req now u3 with
        | .error e => .error e
        | .ok u4 =>
          match stageFlightNumber req u4 with
          | .error e => .error e
          | .ok u5 =>
            match stagePassengers req u5 with
            | .error e => .error e
            | .ok u6 => stageStatus req u6

/-- `TicketHandler.CreateTicket` from `handlers/ticket.go`: required
fields, strict date/time parsing, timestamp composition, ticket
construction, then the Firestore write.  Returns the handler outcome
and the resulting store. -/
def CreateTicket (req : CreateTicketRequest) (now : GoTime)
    (ridx : Fin 6 → Fin 36) (rflight : Fin 9000) (store : Store) :
    Except CreateError FlightTicket × Store :=
  if req.origin = "" ∨ req.destination = "" ∨ req.departureDate = "" ∨
      req.departureTime = "" ∨ req.passengers ≤ 0 then
    (.error .missingFields, store)
  else
    match parseDate req.departureDate with
    | none => (.error .invalidDateFormat, store)
    | some dd =>
      match parseClock req.departureTime with
      | none => (.error .invalidTimeFormat, store)
      | some c =>
        let departureTime := mkUTC dd.year dd.month dd.day c.hour c.minute
        match NewFlightTicket req.origin req.destination dd departureTime
            req.flightNumber req.passengers now ridx rflight with
        | none => (.error .invalidAirportCodes, store)
        | some tk => (.ok tk, FirestoreService.CreateTicket tk store)

/-- `TicketHandler.UpdateTicket` from `handlers/ticket.go`: stage the
supplied fields, reject when nothing was staged, write through the
storage collaborator, then re-read the record.  `nowReq` models the
`time.Now().UTC()` read in the handler's time branch; `nowStamp` the
`time.Now()` read in `FirestoreService.UpdateTicket`. -/
def UpdateTicket (confirmationID : String) (req : UpdateTicketRequest)
    (nowReq nowStamp : GoTime) (store : Store) :
    Except UpdateError FlightTicket × Store :=
  match buildUpdates req nowReq with
  | .error e => (.error e, store)
  | .ok ups =>
    if ups = [] then (.error .nothingToUpdate, store)
    else
      match FirestoreService.UpdateTicket confirmationID ups nowStamp store with
      | none => (.error .storeFailed, store)
      | some store2 =>
        match FirestoreService.GetTicket confirmationID store2 with
        | none => (.error .retrieveFailed, store2)
        | some tk => (.ok tk, store2)

/-- `TicketHandler.DeleteTicket` from `handlers/ticket.go`: delegates
to the soft delete in `FirestoreService.DeleteTicket` and reports the
confirmation id on success. -/
def DeleteTicket (confirmationID : String) (now1 now2 : GoTime)
    (store : Store) : Except UpdateError String × Store :=
  match FirestoreService.DeleteTicket confirmationID now1 now2 store with
  | none => (.error .storeFailed, store)
  | some store2 => (.ok confirmationID, store2)

end TicketHandler

/-- The fields staged by a successful run of the origin branch. -/
def originDelta (req : UpdateTicketRequest) : List FieldUpdate :=
  if req.origin = "" then [] else [("origin", .s req.origin)]

/-- The fields staged by a successful run of the destination branch. -/
def destinationDelta (req : UpdateTicketRequest) : List FieldUpdate :=
  if req.destination = "" then [] else [("destination", .s req.destination)]

/-- The fields staged by a successful run of the departure-date branch. -/
def dateDelta (req : UpdateTicketRequest) : List FieldUpdate :=
  if req.departureDate = "" then []
  else
    match parseDate req.departureDate with
    | none => []
    | some d => [("departure_date", .t d)]

/-- The fields staged by a successful run of the departure-time branch. -/
def timeDelta (req : UpdateTicketRequest) (now : GoTime) : List FieldUpdate :=
  if req.departureTime = "" then []
  else
    match parseClock req.departureTime with
    | none => []
    | some c =>
      if req.departureDate ≠ "" then
        match parseDate req.departureDate with
        | none => []
        | some d => [("departure_time", .t (mkUTC d.year d.month d.day c.hour c.minute))]
      else [("departure_time", .t (mkUTC now.year now.month now.day c.hour c.minute))]

/-- The fields staged by a successful run of the flight-number branch. -/
def flightNumberDelta (req : UpdateTicketRequest) : List FieldUpdate :=
  if req.flightNumber = "" then [] else [("flight_number", .s req.flightNumber)]

/-- The fields staged by the passengers branch. -/
def passengersDelta (req : UpdateTicketRequest) : List FieldUpdate :=
  if 0 < req.passengers then [("passengers", .i req.passengers)] else []

/-- The fields staged by a successful run of the status branch. -/
def statusDelta (req : UpdateTicketRequest) : List FieldUpdate :=
  if req.status = "" then [] else [("status", .s req.status)]

/-- The complete field-set staged by a successful run of the staging
phase, in declaration order. -/
def stagedList (req : UpdateTicketRequest) (now : GoTime) : List FieldUpdate :=
  originDelta req ++ destinationDelta req ++ dateDelta req ++ timeDelta req now ++
    flightNumberDelta req ++ passengersDelta req ++ statusDelta req

/-- The first validation failure of an update request, examined in
field-declaration order (the flight-number and passengers branches
have no failure mode). -/
def firstUpdateError (req : UpdateTicketRequest) : Option UpdateError :=
  if req.origin ≠ "" ∧ ValidateAirportCode req.origin = false then some .invalidOrigin
  else if req.destination ≠ "" ∧ ValidateAirportCode req.destination = false then some .invalidDestination
  else if req.departureDate ≠ "" ∧ parseDate req.departureDate = none then some .invalidDateFormat
  else if req.departureTime ≠ "" ∧ parseClock req.departureTime = none then some .invalidTimeFormat
  else if req.status ≠ "" ∧ req.status ≠ "CONFIRMED" ∧ req.status ≠ "CANCELLED" ∧ req.status ≠ "PENDING" then some .invalidStatus
  else none

/-- The first validation failure of a create request, in the order
the create handler checks them. -/
def firstCreateError (req : CreateTicketRequest) : Option CreateError :=
  if req.origin = "" ∨ req.destination = "" ∨ req.departureDate = "" ∨
      req.departureTime = "" ∨ req.passengers ≤ 0 then some .missingFields
  else if parseDate req.departureDate = none then some .invalidDateFormat
  else if parseClock req.departureTime = none then some .invalidTimeFormat
  else if ValidateAirportCode req.origin = false ∨ ValidateAirportCode req.destination = false then
    some .invalidAirportCodes
  else none

/-- The update request the cancellation path is equivalent to:
only `status` is supplied, with value `CANCELLED`. -/
def cancelRequest : UpdateTicketRequest :=
  ⟨"", "", "", "", "", 0, "CANCELLED"⟩

/-- The format `^[A-Z]{2}[0-9]{4}$` claimed for generated flight
numbers: exactly six characters, two uppercase ASCII letters followed
by four ASCII digits. -/
def matchesFlightNumberFormat (s : String) : Bool :=
  s.data.length == 6 &&
    (s.data.take 2).all isAsciiUpperChar &&
    (s.data.drop 2).all isAsciiDigitChar

/-- The document produced by `FirestoreService.UpdateTicket` for a
stored ticket `tk`: the staged fields plus the `updated_at` stamp,
applied in order. -/
def mergedTicket (ups : List FieldUpdate) (now : GoTime) (tk : FlightTicket) : FlightTicket :=
  (setKey ups "updated_at" (.t now)).foldl applyField tk

/-- A fixed instant used by concrete witnesses. -/
def t0 : GoTime := ⟨2024, 7, 12, 19, 0, 0, 0⟩

/-- A second fixed instant used by concrete witnesses. -/
def t1 : GoTime := ⟨2024, 7, 13, 8, 30, 0, 0⟩

/-- A concrete stored ticket used by witnesses. -/
def sampleTicket : FlightTicket :=
  ⟨"ABC123", "JFK", "LAX", mkUTC 2024 12 25 0 0, mkUTC 2024 12 25 14 30,
    "AA1234", 2, t0, t0, "CONFIRMED"⟩

/-- A store holding exactly `sampleTicket`, used by witnesses. -/
def sampleStore : Store :=
  fun c => if c = "ABC123" then some sampleTicket else none

/-- An update request supplying only an invalid status. -/
def invalidStatusRequest : UpdateTicketRequest := ⟨"", "", "", "", "", 0, "INVALID"⟩

/-- The empty update request. -/
def emptyUpdateRequest : UpdateTicketRequest := ⟨"", "", "", "", "", 0, ""⟩

/-- An update request supplying only `passengers = 3`. -/
def passengersOnlyRequest : UpdateTicketRequest := ⟨"", "", "", "", "", 3, ""⟩

/-- An update request supplying only `departure_time = "14:30"`. -/
def timeOnlyRequest : UpdateTicketRequest := ⟨"", "", "", "14:30", "", 0, ""⟩

/-- A create request with zero passengers. -/
def zeroPassengerCreateRequest : CreateTicketRequest :=
  ⟨"JFK", "LAX", "2024-12-25", "14:30", "AA1234", 0⟩

namespace TicketHandler

theorem stageOrigin_eq_ok (req : UpdateTicketRequest)
    (h : req.origin = "" ∨ ValidateAirportCode req.origin = true) :
    ∀ acc, stageOrigin req acc = .ok (acc ++ originDelta req) := by
  intro acc
  unfold stageOrigin originDelta
  rcases h with h | h
  · simp [h]
  · by_cases h0 : req.origin = "" <;> simp [h0, h]

theorem stageOrigin_eq_error (req : UpdateTicketRequest)
    (h1 : req.origin ≠ "") (h2 : ValidateAirportCode req.origin = false) :
    ∀ acc, stageOrigin req acc = .error .invalidOrigin := by
  intro acc
  simp [stageOrigin, h1, h2]

theorem stageDestination_eq_ok (req : UpdateTicketRequest)
    (h : req.destination = "" ∨ ValidateAirportCode req.destination = true) :
    ∀ acc, stageDestination req acc = .ok (acc ++ destinationDelta req) := by
  intro acc
  unfold stageDestination destinationDelta
  rcases h with h | h
  · simp [h]
  · by_cases h0 : req.destination = "" <;> simp [h0, h]

theorem stageDestination_eq_error (req : UpdateTicketRequest)
    (h1 : req.destination ≠ "") (h2 : ValidateAirportCode req.destination = false) :
    ∀ acc, stageDestination req acc = .error .invalidDestination := by
  intro acc
  simp [stageDestination, h1, h2]

theorem stageDate_eq_ok (req : UpdateTicketRequest)
    (h : req.departureDate = "" ∨ ∃ d, parseDate req.departureDate = some d) :
    ∀ acc, stageDate req acc = .ok (acc ++ dateDelta req) := by
  intro acc
  unfold stageDate dateDelta
  rcases h with h | ⟨d, hd⟩
  · simp [h]
  · by_cases h0 : req.departureDate = "" <;> simp [h0, hd]

theorem stageDate_eq_error (req : UpdateTicketRequest)
    (h1 : req.departureDate ≠ "") (h2 : parseDate req.departureDate = none) :
    ∀ acc, stageDate req acc = .error .invalidDateFormat := by
  intro acc
  simp [stageDate, h1, h2]

theorem stageTime_eq_ok (req : UpdateTicketRequest) (now : GoTime)
    (h : req.departureTime = "" ∨
      (∃ c, parseClock req.departureTime = some c ∧
        (req.departureDate = "" ∨ ∃ d, parseDate req.departureDate = some d))) :
    ∀ acc, stageTime req now acc = .ok (acc ++ timeDelta req now) := by
  intro acc
  unfold stageTime timeDelta
  rcases h with h | ⟨c, hc, h⟩
  · simp [h]
  · by_cases h0 : req.departureTime = ""
    · simp [h0]
    · rcases h with h | ⟨d, hd⟩
      · simp [h0, hc, h]
      · by_cases h1 : req.departureDate = "" <;> simp [h0, hc, h1, hd]

theorem stageTime_eq_error (req : UpdateTicketRequest) (now : GoTime)
    (h1 : req.departureTime ≠ "") (h2 : parseClock req.departureTime = none) :
    ∀ acc, stageTime req now acc = .error .invalidTimeFormat := by
  intro acc
  simp [stageTime, h1, h2]

theorem stageFlightNumber_eq (req : UpdateTicketRequest) :
    ∀ acc, stageFlightNumber req acc = .ok (acc ++ flightNumberDelta req) := by
  intro acc
  unfold stageFlightNumber flightNumberDelta
  by_cases h : req.flightNumber = "" <;> simp [h]

theorem stagePassengers_eq (req : UpdateTicketRequest) :
    ∀ acc, stagePassengers req acc = .ok (acc ++ passengersDelta req) := by
  intro acc
  unfold stagePassengers passengersDelta
  by_cases h : 0 < req.passengers <;> simp [h]

theorem stageStatus_eq_ok (req : UpdateTicketRequest)
    (h : req.status = "" ∨ req.status = "CONFIRMED" ∨ req.status = "CANCELLED" ∨
      req.status = "PENDING") :
    ∀ acc, stageStatus req acc = .ok (acc ++ statusDelta req) := by
  intro acc
  unfold stageStatus statusDelta
  rcases h with h | h | h | h <;> simp [h]

theorem stageStatus_eq_error (req : UpdateTicketRequest)
    (h1 : req.status ≠ "") (h2 : req.status ≠ "CONFIRMED")
    (h3 : req.status ≠ "CANCELLED") (h4 : req.status ≠ "PENDING") :
    ∀ acc, stageStatus req acc = .error .invalidStatus := by
  intro acc
  simp [stageStatus, h1, h2, h3, h4]

theorem buildUpdates_eq_of_err (req : UpdateTicketRequest) (now : GoTime)
    (e : UpdateError) (hf : firstUpdateError req = some e) :
    buildUpdates req now = .error e := by
  unfold firstUpdateError at hf
  have hbool : ∀ s : String, ¬(s ≠ "" ∧ ValidateAirportCode s = false) →
      s = "" ∨ ValidateAirportCode s = true := by
    intro s h
    by_cases h0 : s = ""
    · exact Or.inl h0
    · rcases Bool.eq_false_or_eq_true (ValidateAirportCode s) with hb | hb
      · exact Or.inr hb
      · exact absurd ⟨h0, hb⟩ h
  have hdate : ∀ s : String, ¬(s ≠ "" ∧ parseDate s = none) →
      s = "" ∨ ∃ d, parseDate s = some d := by
    intro s h
    by_cases h0 : s = ""
    · exact Or.inl h0
    · cases hp : parseDate s with
      | none => exact absurd ⟨h0, hp⟩ h
      | some d => exact Or.inr ⟨d, rfl⟩
  split_ifs at hf with h1 h2 h3 h4 h5
  · cases hf
    simp only [buildUpdates, stageOrigin_eq_error req h1.1 h1.2]
  · cases hf
    simp only [buildUpdates, stageOrigin_eq_ok req (hbool _ h1),
      stageDestination_eq_error req h2.1 h2.2]
  · cases hf
    simp only [buildUpdates, stageOrigin_eq_ok req (hbool _ h1),
      stageDestination_eq_ok req (hbool _ h2), stageDate_eq_error req h3.1 h3.2]
  · cases hf
    simp only [buildUpdates, stageOrigin_eq_ok req (hbool _ h1),
      stageDestination_eq_ok req (hbool _ h2), stageDate_eq_ok req (hdate _ h3),
      stageTime_eq_error req now h4.1 h4.2]
  · cases hf
    have hclock : req.departureTime = "" ∨
        (∃ c, parseClock req.departureTime = some c ∧
          (req.departureDate = "" ∨ ∃ d, parseDate req.departureDate = some d)) := by
      by_cases h0 : req.departureTime = ""
      · exact Or.inl h0
      · cases hp : parseClock req.departureTime with
        | none => exact absurd ⟨h0, hp⟩ h4
        | some c => exact Or.inr ⟨c, rfl, hdate _ h3⟩
    simp only [buildUpdates, stageOrigin_eq_ok req (hbool _ h1),
      stageDestination_eq_ok req (hbool _ h2), stageDate_eq_ok req (hdate _ h3),
      stageTime_eq_ok req now hclock, stageFlightNumber_eq, stagePassengers_eq,
      stageStatus_eq_error req h5.1 h5.2.1 h5.2.2.1 h5.2.2.2]

theorem buildUpdates_eq_of_noerr (req : UpdateTicketRequest) (now : GoTime)
    (hf : firstUpdateError req = none) :
    buildUpdates req now = .ok (stagedList req now) := by
  unfold firstUpdateError at hf
  split_ifs at hf with h1 h2 h3 h4 h5
  have hbool : ∀ s : String, ¬(s ≠ "" ∧ ValidateAirportCode s = false) →
      s = "" ∨ ValidateAirportCode s = true := by
    intro s h
    by_cases h0 : s = ""
    · exact Or.inl h0
    · rcases Bool.eq_false_or_eq_true (ValidateAirportCode s) with hb | hb
      · exact Or.inr hb
      · exact absurd ⟨h0, hb⟩ h
  have hdate : req.departureDate = "" ∨ ∃ d, parseDate req.departureDate = some d := by
    by_cases h0 : req.departureDate = ""
    · exact Or.inl h0
    · cases hp : parseDate req.departureDate with
      | none => exact absurd ⟨h0, hp⟩ h3
      | some d => exact Or.inr ⟨d, rfl⟩
  have hclock : req.departureTime = "" ∨
      (∃ c, parseClock req.departureTime = some c ∧
        (req.departureDate = "" ∨ ∃ d, parseDate req.departureDate = some d)) := by
    by_cases h0 : req.departureTime = ""
    · exact Or.inl h0
    · cases hp : parseClock req.departureTime with
      | none => exact absurd ⟨h0, hp⟩ h4
      | some c => exact Or.inr ⟨c, rfl, hdate⟩
  have hstatus : req.status = "" ∨ req.status = "CONFIRMED" ∨
      req.status = "CANCELLED" ∨ req.status = "PENDING" := by
    by_cases h0 : req.status = ""
    · exact Or.inl h0
    · by_cases hc : req.status = "CONFIRMED"
      · exact Or.inr (Or.inl hc)
      · by_cases hx : req.status = "CANCELLED"
        · exact Or.inr (Or.inr (Or.inl hx))
        · by_cases hp : req.status = "PENDING"
          · exact Or.inr (Or.inr (Or.inr hp))
          · exact absurd ⟨h0, hc, hx, hp⟩ h5
  simp only [buildUpdates, stageOrigin_eq_ok req (hbool _ h1),
    stageDestination_eq_ok req (hbool _ h2), stageDate_eq_ok req hdate,
    stageTime_eq_ok req now hclock, stageFlightNumber_eq, stagePassengers_eq,
    stageStatus_eq_ok req hstatus, stagedList, List.nil_append, List.append_assoc]

theorem buildUpdates_ok_shape (req : UpdateTicketRequest) (now : GoTime)
    (ups : List FieldUpdate) (h : buildUpdates req now = .ok ups) :
    ups = stagedList req now := by
  cases hf : firstUpdateError req with
  | none =>
    rw [buildUpdates_eq_of_noerr req now hf] at h
    exact (Except.ok.inj h).symm
  | some e =>
    rw [buildUpdates_eq_of_err req now e hf] at h
    cases h

end TicketHandler

theorem foldl_applyField_pres {α : Type} (p : FieldUpdate → Prop)
    (f : FlightTicket → α)
    (hstep : ∀ tk kv, p kv → f (applyField tk kv) = f tk) :
    ∀ (l : List FieldUpdate) (tk : FlightTicket),
      (∀ kv ∈ l, p kv) → f (l.foldl applyField tk) = f tk := by
  intro l
  induction l with
  | nil => intro tk _; rfl
  | cons kv l ih =>
    intro tk hall
    rw [List.foldl_cons, ih _ fun x hx => hall x (List.mem_cons_of_mem _ hx),
      hstep tk kv (hall kv (List.mem_cons_self _ _))]

theorem applyField_confirmationID (tk : FlightTicket) (kv : FieldUpdate) :
    (applyField tk kv).confirmationID = tk.confirmationID := by
  rcases kv with ⟨k, v⟩
  cases v <;> simp only [applyField] <;> split_ifs <;> rfl

theorem applyField_createdAt (tk : FlightTicket) (kv : FieldUpdate) :
    (applyField tk kv).createdAt = tk.createdAt := by
  rcases kv with ⟨k, v⟩
  cases v <;> simp only [applyField] <;> split_ifs <;> rfl

theorem applyField_origin_of_ne (tk : FlightTicket) (kv : FieldUpdate)
    (h : kv.1 ≠ "origin") : (applyField tk kv).origin = tk.origin := by
  rcases kv with ⟨k, v⟩
  cases v <;> simp only [applyField] <;> split_ifs <;> simp_all

theorem applyField_destination_of_ne (tk : FlightTicket) (kv : FieldUpdate)
    (h : kv.1 ≠ "destination") : (applyField tk kv).destination = tk.destination := by
  rcases kv with ⟨k, v⟩
  cases v <;> simp only [applyField] <;> split_ifs <;> simp_all

theorem applyField_departureDate_of_ne (tk : FlightTicket) (kv : FieldUpdate)
    (h : kv.1 ≠ "departure_date") : (applyField tk kv).departureDate = tk.departureDate := by
  rcases kv with ⟨k, v⟩
  cases v <;> simp only [applyField] <;> split_ifs <;> simp_all

theorem applyField_departureTime_of_ne (tk : FlightTicket) (kv : FieldUpdate)
    (h : kv.1 ≠ "departure_time") : (applyField tk kv).departureTime = tk.departureTime := by
  rcases kv with ⟨k, v⟩
  cases v <;> simp only [applyField] <;> split_ifs <;> simp_all

theorem applyField_flightNumber_of_ne (tk : FlightTicket) (kv : FieldUpdate)
    (h : kv.1 ≠ "flight_number") : (applyField tk kv).flightNumber = tk.flightNumber := by
  rcases kv with ⟨k, v⟩
  cases v <;> simp only [applyField] <;> split_ifs <;> simp_all

theorem applyField_passengers_of_ne (tk : FlightTicket) (kv : FieldUpdate)
    (h : kv.1 ≠ "passengers") : (applyField tk kv).passengers = tk.passengers := by
  rcases kv with ⟨k, v⟩
  cases v <;> simp only [applyField] <;> split_ifs <;> simp_all

theorem applyField_status_of_ne (tk : FlightTicket) (kv : FieldUpdate)
    (h : kv.1 ≠ "status") : (applyField tk kv).status = tk.status := by
  rcases kv with ⟨k, v⟩
  cases v <;> simp only [applyField] <;> split_ifs <;> simp_all

theorem applyField_updatedAt_of_ne (tk : FlightTicket) (kv : FieldUpdate)
    (h : kv.1 ≠ "updated_at") : (applyField tk kv).updatedAt = tk.updatedAt := by
  rcases kv with ⟨k, v⟩
  cases v <;> simp only [applyField] <;> split_ifs <;> simp_all

theorem mem_originDelta (req : UpdateTicketRequest) (kv : FieldUpdate)
    (h : kv ∈ originDelta req) : kv.1 = "origin" := by
  unfold originDelta at h
  split at h <;> simp_all

theorem mem_destinationDelta (req : UpdateTicketRequest) (kv : FieldUpdate)
    (h : kv ∈ destinationDelta req) : kv.1 = "destination" := by
  unfold destinationDelta at h
  split at h <;> simp_all

theorem mem_dateDelta (req : UpdateTicketRequest) (kv : FieldUpdate)
    (h : kv ∈ dateDelta req) : kv.1 = "departure_date" := by
  unfold dateDelta at h
  split at h
  · simp_all
  · split at h <;> simp_all

theorem mem_timeDelta (req : UpdateTicketRequest) (now : GoTime) (kv : FieldUpdate)
    (h : kv ∈ timeDelta req now) : kv.1 = "departure_time" := by
  unfold timeDelta at h
  split at h
  · simp_all
  · split at h
    · simp_all
    · split at h
      · split at h <;> simp_all
      · simp_all

theorem mem_flightNumberDelta (req : UpdateTicketRequest) (kv : FieldUpdate)
    (h : kv ∈ flightNumberDelta req) : kv.1 = "flight_number" := by
  unfold flightNumberDelta at h
  split at h <;> simp_all

theorem mem_passengersDelta (req : UpdateTicketRequest) (kv : FieldUpdate)
    (h : kv ∈ passengersDelta req) : kv.1 = "passengers" := by
  unfold passengersDelta at h
  split at h <;> simp_all

theorem mem_statusDelta (req : UpdateTicketRequest) (kv : FieldUpdate)
    (h : kv ∈ statusDelta req) : kv.1 = "status" := by
  unfold statusDelta at h
  split at h <;> simp_all

theorem mem_stagedList_key (req : UpdateTicketRequest) (now : GoTime)
    (kv : FieldUpdate) (h : kv ∈ stagedList req now) :
    kv.1 = "origin" ∨ kv.1 = "destination" ∨ kv.1 = "departure_date" ∨
      kv.1 = "departure_time" ∨ kv.1 = "flight_number" ∨ kv.1 = "passengers" ∨
      kv.1 = "status" := by
  unfold stagedList at h
  simp only [List.mem_append] at h
  rcases h with ((((((h | h) | h) | h) | h) | h) | h)
  · exact Or.inl (mem_originDelta req kv h)
  · exact Or.inr (Or.inl (mem_destinationDelta req kv h))
  · exact Or.inr (Or.inr (Or.inl (mem_dateDelta req kv h)))
  · exact Or.inr (Or.inr (Or.inr (Or.inl (mem_timeDelta req now kv h))))
  · exact Or.inr (Or.inr (Or.inr (Or.inr (Or.inl (mem_flightNumberDelta req kv h)))))
  · exact Or.inr (Or.inr (Or.inr (Or.inr (Or.inr (Or.inl (mem_passengersDelta req kv h))))))
  · exact Or.inr (Or.inr (Or.inr (Or.inr (Or.inr (Or.inr (mem_statusDelta req kv h))))))

theorem stagedList_no_updatedAt (req : UpdateTicketRequest) (now : GoTime)
    (kv : FieldUpdate) (h : kv ∈ stagedList req now) : kv.1 ≠ "updated_at" := by
  rcases mem_stagedList_key req now kv h with h' | h' | h' | h' | h' | h' | h' <;>
    simp [h']

/-- With no staged `updated_at` entry, the Firestore stamp appends. -/
theorem setKey_updatedAt_of_staged (req : UpdateTicketRequest) (now : GoTime)
    (v : FieldValue) :
    setKey (stagedList req now) "updated_at" v = stagedList req now ++ [("updated_at", v)] := by
  unfold setKey
  have hany : (stagedList req now).any (fun kv => kv.1 == "updated_at") = false := by
    rw [List.any_eq_false]
    intro kv hkv
    have := stagedList_no_updatedAt req now kv hkv
    simpa using this
  rw [hany]
  simp

/-- C2: `ValidateAirportCode` returns true exactly on strings of
length 3 that equal their own uppercasing, with the spec's four
concrete examples. -/
theorem c2_validate_airport_code :
    (∀ code : String,
      ValidateAirportCode code = true ↔
        (code.data.length = 3 ∧ goToUpperStr code = code)) ∧
    ValidateAirportCode "JFK" = true ∧ ValidateAirportCode "jfk" = false ∧
    ValidateAirportCode "JFKX" = false ∧ ValidateAirportCode "" = false := by
  refine ⟨fun code => ?_, by decide, by decide, by decide, by decide⟩
  simp [ValidateAirportCode]

/-- C10: every 3-character ASCII string with no lowercase letters —
letters, digits or symbols alike — passes the airport-code validator,
e.g. "123" and "K1M". -/
theorem c10_nonletter_codes_accepted :
    (∀ code : String, (∀ c ∈ code.data, c.toNat < 128) →
      code.data.length = 3 → (∀ c ∈ code.data, isAsciiLowerChar c = false) →
      ValidateAirportCode code = true) ∧
    ValidateAirportCode "123" = true ∧ ValidateAirportCode "K1M" = true := by
  refine ⟨fun code _ hlen hlow => ?_, by decide, by decide⟩
  have hmap : code.data.map goToUpperChar = code.data := by
    have : ∀ c ∈ code.data, goToUpperChar c = c := by
      intro c hc
      simp [goToUpperChar, hlow c hc]
    calc code.data.map goToUpperChar = code.data.map id := List.map_congr_left this
      _ = code.data := List.map_id code.data
  cases code with
  | mk data =>
    simp only [ValidateAirportCode, goToUpperStr] at *
    simp [hlen, hmap]

/-- C10 witness: the generic statement applied to the concrete code
"123". -/
theorem c10_nonletter_codes_accepted_witness :
    ValidateAirportCode "123" = true :=
  c10_nonletter_codes_accepted.1 "123" (by decide) (by decide) (by decide)

/-- C1: `NewFlightTicket` returns `none` exactly when an airport code
fails validation; otherwise it returns the fully populated ticket
with uppercased origin, destination and flight number, status
CONFIRMED, equal creation and update stamps, a 6-character
confirmation id, and a flight number generated with airline code "AA"
when the supplied one is empty. -/
theorem c1_new_flight_ticket (origin destination : String)
    (departureDate departureTime : GoTime) (flightNumber : String)
    (passengers : Int) (now : GoTime) (ridx : Fin 6 → Fin 36)
    (rflight : Fin 9000) :
    (NewFlightTicket origin destination departureDate departureTime flightNumber
        passengers now ridx rflight = none ↔
      ¬(ValidateAirportCode origin = true ∧ ValidateAirportCode destination = true)) ∧
    (ValidateAirportCode origin = true → ValidateAirportCode destination = true →
      NewFlightTicket origin destination departureDate departureTime flightNumber
          passengers now ridx rflight = some {
        confirmationID := GenerateConfirmationID ridx
        origin := goToUpperStr origin
        destination := goToUpperStr destination
        departureDate := departureDate
        departureTime := departureTime
        flightNumber := goToUpperStr
          (if flightNumber = "" then GenerateFlightNumber "AA" rflight else flightNumber)
        passengers := passengers
        createdAt := now
        updatedAt := now
        status := "CONFIRMED" }) ∧
    (GenerateConfirmationID ridx).data.length = 6 := by
  refine ⟨?_, ?_, ?_⟩
  · by_cases ho : ValidateAirportCode origin = true <;>
      by_cases hd : ValidateAirportCode destination = true <;>
      simp [NewFlightTicket, ho, hd]
  · intro ho hd
    simp [NewFlightTicket, ho, hd]
  · simp [GenerateConfirmationID, List.length_ofFn]

/-- C1 witness: a valid creation on concrete inputs, with the random
draws fixed at zero. -/
theorem c1_new_flight_ticket_witness :
    NewFlightTicket "JFK" "LAX" (mkUTC 2024 12 25 0 0) (mkUTC 2024 12 25 14 30)
        "AA1234" 2 t0 (fun _ => 0) 0 = some {
      confirmationID := "AAAAAA"
      origin := "JFK"
      destination := "LAX"
      departureDate := mkUTC 2024 12 25 0 0
      departureTime := mkUTC 2024 12 25 14 30
      flightNumber := "AA1234"
      passengers := 2
      createdAt := t0
      updatedAt := t0
      status := "CONFIRMED" } := by
  have h := (c1_new_flight_ticket "JFK" "LAX" (mkUTC 2024 12 25 0 0)
    (mkUTC 2024 12 25 14 30) "AA1234" 2 t0 (fun _ => 0) 0).2.1 (by decide) (by decide)
  rw [h]
  decide

/-- C3: an update request with at least one invalid field is rejected
with the first validation failure in field-declaration order, and the
store is left untouched. -/
theorem c3_update_rejects_at_first_failure (cid : String)
    (req : UpdateTicketRequest) (nowReq nowStamp : GoTime) (store : Store)
    (e : UpdateError) (hf : firstUpdateError req = some e) :
    TicketHandler.UpdateTicket cid req nowReq nowStamp store = (.error e, store) := by
  have hb := TicketHandler.buildUpdates_eq_of_err req nowReq e hf
  simp [TicketHandler.UpdateTicket, hb]

/-- C3 witness: `{status: "INVALID"}` is rejected with the status
error, leaving the sample store unchanged. -/
theorem c3_update_rejects_at_first_failure_witness :
    TicketHandler.UpdateTicket "ABC123" invalidStatusRequest t0 t1 sampleStore =
      (.error .invalidStatus, sampleStore) :=
  c3_update_rejects_at_first_failure "ABC123" invalidStatusRequest t0 t1 sampleStore
    .invalidStatus (by decide)

/-- C5: the passengers field is staged exactly when strictly positive
(a non-positive supplied value is silently dropped, not rejected),
and a request in which nothing ends up staged — in particular the
all-empty request with non-positive passengers — is rejected with the
nothing-to-update error without a storage write. -/
theorem c5_passengers_and_nothing_to_update (cid : String)
    (req : UpdateTicketRequest) (nowReq nowStamp : GoTime) (store : Store) :
    (∀ ups, TicketHandler.buildUpdates req nowReq = .ok ups →
      ((∃ v, ("passengers", v) ∈ ups) ↔ 0 < req.passengers)) ∧
    (∀ ups, TicketHandler.buildUpdates req nowReq = .ok ups → ups = [] →
      TicketHandler.UpdateTicket cid req nowReq nowStamp store =
        (.error .nothingToUpdate, store)) ∧
    (req.origin = "" → req.destination = "" → req.departureDate = "" →
      req.departureTime = "" → req.flightNumber = "" → req.status = "" →
      req.passengers ≤ 0 →
      TicketHandler.UpdateTicket cid req nowReq nowStamp store =
        (.error .nothingToUpdate, store)) := by
  refine ⟨?_, ?_, ?_⟩
  · intro ups hb
    have hs := TicketHandler.buildUpdates_ok_shape req nowReq ups hb
    subst hs
    constructor
    · rintro ⟨v, hv⟩
      unfold stagedList at hv
      simp only [List.mem_append] at hv
      rcases hv with ((((((h | h) | h) | h) | h) | h) | h)
      · have hk := mem_originDelta req _ h
        simp at hk
      · have hk := mem_destinationDelta req _ h
        simp at hk
      · have hk := mem_dateDelta req _ h
        simp at hk
      · have hk := mem_timeDelta req nowReq _ h
        simp at hk
      · have hk := mem_flightNumberDelta req _ h
        simp at hk
      · unfold passengersDelta at h
        split at h
        · assumption
        · simp at h
      · have hk := mem_statusDelta req _ h
        simp at hk
    · intro hp
      refine ⟨.i req.passengers, ?_⟩
      unfold stagedList passengersDelta
      simp [List.mem_append, hp]
  · intro ups hb hempty
    subst hempty
    simp [TicketHandler.UpdateTicket, hb]
  · intro h1 h2 h3 h4 h5 h6 h7
    have hf : firstUpdateError req = none := by
      unfold firstUpdateError
      simp [h1, h2, h3, h4, h6]
    have hb := TicketHandler.buildUpdates_eq_of_noerr req nowReq hf
    have hempty : stagedList req nowReq = [] := by
      unfold stagedList originDelta destinationDelta dateDelta timeDelta
        flightNumberDelta passengersDelta statusDelta
      have : ¬(0 < req.passengers) := by omega
      simp [h1, h2, h3, h4, h5, h6, this]
    rw [hempty] at hb
    simp [TicketHandler.UpdateTicket, hb]

/-- C5 witness: the empty update request is rejected with the
nothing-to-update error on the sample store. -/
theorem c5_passengers_and_nothing_to_update_witness :
    TicketHandler.UpdateTicket "ABC123" emptyUpdateRequest t0 t1 sampleStore =
      (.error .nothingToUpdate, sampleStore) :=
  (c5_passengers_and_nothing_to_update "ABC123" emptyUpdateRequest t0 t1
    sampleStore).2.2 rfl rfl rfl rfl rfl rfl (by decide)

/-- `NewFlightTicket` fails exactly on invalid airport codes. -/
theorem NewFlightTicket_eq_none (origin destination : String)
    (departureDate departureTime : GoTime) (flightNumber : String)
    (passengers : Int) (now : GoTime) (ridx : Fin 6 → Fin 36)
    (rflight : Fin 9000)
    (h : ValidateAirportCode origin = false ∨ ValidateAirportCode destination = false) :
    NewFlightTicket origin destination departureDate departureTime flightNumber
      passengers now ridx rflight = none := by
  rcases h with h | h <;> simp [NewFlightTicket, h]

/-- C6: a create request that is missing a required field, has
non-positive passengers, fails strict date/time parsing, or carries
an invalid airport code is rejected with the corresponding error and
the store is left untouched. -/
theorem c6_create_rejects_before_write (req : CreateTicketRequest)
    (now : GoTime) (ridx : Fin 6 → Fin 36) (rflight : Fin 9000)
    (store : Store) (e : CreateError) (hf : firstCreateError req = some e) :
    TicketHandler.CreateTicket req now ridx rflight store = (.error e, store) := by
  unfold firstCreateError at hf
  split_ifs at hf with h1 h2 h3 h4
  · cases hf
    simp [TicketHandler.CreateTicket, h1]
  · cases hf
    simp only [TicketHandler.CreateTicket, if_neg h1, h2]
  · cases hf
    cases hd : parseDate req.departureDate with
    | none => exact absurd hd h2
    | some dd => simp only [TicketHandler.CreateTicket, if_neg h1, hd, h3]
  · cases hf
    cases hd : parseDate req.departureDate with
    | none => exact absurd hd h2
    | some dd =>
      cases hc : parseClock req.departureTime with
      | none => exact absurd hc h3
      | some c =>
        have hz : ValidateAirportCode req.origin = false ∨
            ValidateAirportCode req.destination = false := h4
        simp only [TicketHandler.CreateTicket, if_neg h1, hd, hc,
          NewFlightTicket_eq_none _ _ _ _ _ _ _ _ _ hz]

/-- C6 witness: a create request with zero passengers is rejected
with the missing-fields error, leaving the sample store unchanged. -/
theorem c6_create_rejects_before_write_witness :
    TicketHandler.CreateTicket zeroPassengerCreateRequest t0 (fun _ => 0) 0 sampleStore =
      (.error .missingFields, sampleStore) :=
  c6_create_rejects_before_write zeroPassengerCreateRequest t0 (fun _ => 0) 0
    sampleStore .missingFields (by decide)

theorem string_data_append (a b : String) : (a ++ b).data = a.data ++ b.data := by
  cases a
  cases b
  rfl

theorem natDigitsRev_zero (fuel : Nat) : natDigitsRev fuel 0 = [] := by
  cases fuel <;> rfl

theorem natDigitsRev_step (fuel n : Nat) (hn : n ≠ 0) (hf : 1 ≤ fuel) :
    natDigitsRev fuel n = Char.ofNat (48 + n % 10) :: natDigitsRev (fuel - 1) (n / 10) := by
  cases fuel with
  | zero => omega
  | succ f =>
    cases n with
    | zero => exact absurd rfl hn
    | succ m => rfl

theorem char_ofNat_digit_isDigit (d : Nat) (hd : d < 10) :
    isAsciiDigitChar (Char.ofNat (48 + d)) = true := by
  interval_cases d <;> decide

theorem char_ofNat_upper_isUpper (m : Nat) (h1 : 65 ≤ m) (h2 : m ≤ 90) :
    isAsciiUpperChar (Char.ofNat m) = true := by
  interval_cases m <;> decide

/-- A four-digit number prints as its four decimal digit characters. -/
theorem natToDecimalString_four_digits (n : Nat) (h1 : 1000 ≤ n) (h2 : n ≤ 9999) :
    (natToDecimalString n).data =
      [Char.ofNat (48 + n / 1000), Char.ofNat (48 + n / 100 % 10),
       Char.ofNat (48 + n / 10 % 10), Char.ofNat (48 + n % 10)] := by
  have hn0 : n ≠ 0 := by omega
  have s1 := natDigitsRev_step n n hn0 (by omega)
  have s2 := natDigitsRev_step (n - 1) (n / 10) (by omega) (by omega)
  have s3 := natDigitsRev_step (n - 1 - 1) (n / 10 / 10) (by omega) (by omega)
  have s4 := natDigitsRev_step (n - 1 - 1 - 1) (n / 10 / 10 / 10) (by omega) (by omega)
  have hz : n / 10 / 10 / 10 / 10 = 0 := by omega
  have e1 : n / 10 / 10 = n / 100 := by omega
  have e2 : n / 10 / 10 / 10 = n / 1000 := by omega
  have e3 : n / 1000 % 10 = n / 1000 := by omega
  unfold natToDecimalString
  rw [if_neg hn0]
  show (natDigitsRev n n).reverse = _
  rw [s1, s2, s3, s4, hz, natDigitsRev_zero]
  simp only [List.reverse_cons, List.reverse_nil, List.nil_append, List.cons_append,
    List.append_nil]
  rw [e1]
  have e4 : n / 100 / 10 % 10 = n / 1000 := by omega
  rw [e4]

theorem goToUpperChar_upper_of_alpha (c : Char) (h : isAsciiAlphaChar c = true) :
    isAsciiUpperChar (goToUpperChar c) = true := by
  unfold isAsciiAlphaChar at h
  rw [Bool.or_eq_true] at h
  rcases h with h | h
  · have hlow : isAsciiLowerChar c = false := by
      simp only [isAsciiUpperChar, Bool.and_eq_true, decide_eq_true_eq] at h
      simp only [isAsciiLowerChar, Bool.and_eq_false_iff, decide_eq_false_iff_not]
      left
      omega
    simpa [goToUpperChar, hlow] using h
  · have hb : 97 ≤ c.toNat ∧ c.toNat ≤ 122 := by
      simpa only [isAsciiLowerChar, Bool.and_eq_true, decide_eq_true_eq] using h
    rw [goToUpperChar, if_pos h]
    exact char_ofNat_upper_isUpper (c.toNat - 32) (by omega) (by omega)

/-- Any two ASCII uppercase characters followed by a four-digit
number match the claimed flight-number format. -/
theorem matches_of_upper2 (p : String) (n : Nat) (hp : p.data.length = 2)
    (hup : ∀ c ∈ p.data, isAsciiUpperChar c = true)
    (h1 : 1000 ≤ n) (h2 : n ≤ 9999) :
    matchesFlightNumberFormat (p ++ natToDecimalString n) = true := by
  have hd := natToDecimalString_four_digits n h1 h2
  have htake : ((p ++ natToDecimalString n).data).take 2 = p.data := by
    rw [string_data_append, ← hp, List.take_left]
  have hdrop : ((p ++ natToDecimalString n).data).drop 2 = (natToDecimalString n).data := by
    rw [string_data_append, ← hp, List.drop_left]
  have hlen : ((p ++ natToDecimalString n).data).length = 6 := by
    rw [string_data_append, List.length_append, hp, hd]
    rfl
  unfold matchesFlightNumberFormat
  rw [htake, hdrop, hlen, hd]
  simp only [beq_self_eq_true, Bool.true_and, Bool.and_eq_true, List.all_eq_true]
  constructor
  · exact hup
  · intro c hc
    simp only [List.mem_cons, List.not_mem_nil, or_false] at hc
    rcases hc with hc | hc | hc | hc <;> subst hc <;>
      exact char_ofNat_digit_isDigit _ (by omega)

/-- C9 (amended): `GenerateFlightNumber` keeps a 2-character airline
code and substitutes "AA" otherwise, appends a 4-digit number in
[1000, 9999], and uppercases the airline code; the result matches
`^[A-Z]{2}[0-9]{4}$` whenever the code is not exactly 2 characters or
its 2 characters are ASCII letters. -/
theorem c9_generate_flight_number (code : String) (r : Fin 9000) :
    (code.data.length ≠ 2 →
      GenerateFlightNumber code r = "AA" ++ natToDecimalString (r.val + 1000)) ∧
    (code.data.length = 2 →
      GenerateFlightNumber code r = goToUpperStr code ++ natToDecimalString (r.val + 1000)) ∧
    1000 ≤ r.val + 1000 ∧ r.val + 1000 ≤ 9999 ∧
    (code.data.length ≠ 2 →
      matchesFlightNumberFormat (GenerateFlightNumber code r) = true) ∧
    (code.data.length = 2 → (∀ c ∈ code.data, isAsciiAlphaChar c = true) →
      matchesFlightNumberFormat (GenerateFlightNumber code r) = true) := by
  have hr : r.val < 9000 := r.isLt
  have hAA : GenerateFlightNumber code r =
      goToUpperStr (if code.data.length ≠ 2 then "AA" else code) ++
        natToDecimalString (r.val + 1000) := rfl
  refine ⟨?_, ?_, by omega, by omega, ?_, ?_⟩
  · intro h
    rw [hAA, if_pos h]
    rfl
  · intro h
    rw [hAA, if_neg (by omega)]
  · intro h
    rw [hAA, if_pos h]
    exact matches_of_upper2 (goToUpperStr "AA") (r.val + 1000) (by decide)
      (by decide) (by omega) (by omega)
  · intro h halpha
    rw [hAA, if_neg (by omega)]
    refine matches_of_upper2 (goToUpperStr code) (r.val + 1000) ?_ ?_ (by omega) (by omega)
    · simp [goToUpperStr, h]
    · intro c hc
      simp only [goToUpperStr, List.mem_map] at hc
      obtain ⟨c0, hc0, rfl⟩ := hc
      exact goToUpperChar_upper_of_alpha c0 (halpha c0 hc0)

/-- C9 counterexample: the airline code "12" is exactly 2 characters,
so it is kept; the result "121000" does not match
`^[A-Z]{2}[0-9]{4}$`, refuting the claim's unconditional format
conjunct. -/
theorem c9_generate_flight_number_counterexample :
    GenerateFlightNumber "12" 0 = "121000" ∧
    matchesFlightNumberFormat (GenerateFlightNumber "12" 0) = false := by
  constructor <;> decide

/-- C9 witness: a lowercase 2-letter airline code is kept, uppercased
and produces a format-conforming flight number. -/
theorem c9_generate_flight_number_witness :
    GenerateFlightNumber "qf" 123 = "QF1123" ∧
    matchesFlightNumberFormat (GenerateFlightNumber "qf" 123) = true := by
  refine ⟨by decide, ?_⟩
  exact (c9_generate_flight_number "qf" 123).2.2.2.2.2 (by decide) (by decide)

theorem timeDelta_eq_today (req : UpdateTicketRequest) (now : GoTime) (c : GoTime)
    (hne : req.departureTime ≠ "") (hc : parseClock req.departureTime = some c)
    (hd0 : req.departureDate = "") :
    timeDelta req now =
      [("departure_time", .t (mkUTC now.year now.month now.day c.hour c.minute))] := by
  unfold timeDelta
  simp [hne, hc, hd0]

theorem timeDelta_eq_newdate (req : UpdateTicketRequest) (now : GoTime) (c d : GoTime)
    (hne : req.departureTime ≠ "") (hc : parseClock req.departureTime = some c)
    (hd1 : req.departureDate ≠ "") (hd : parseDate req.departureDate = some d) :
    timeDelta req now =
      [("departure_time", .t (mkUTC d.year d.month d.day c.hour c.minute))] := by
  unfold timeDelta
  simp [hne, hc, hd1, hd]

/-- C4: when the update request's departure_time parses, the staged
departure_time timestamp combines the parsed hour and minute with the
newly supplied request date when one was supplied, and with the
current wall-clock date otherwise; seconds and sub-seconds are zero
in either case. -/
theorem c4_time_composition (req : UpdateTicketRequest) (nowReq : GoTime)
    (c : GoTime) (ups : List FieldUpdate)
    (hc : parseClock req.departureTime = some c)
    (hb : TicketHandler.buildUpdates req nowReq = .ok ups) :
    (req.departureDate = "" →
      ("departure_time",
        FieldValue.t (mkUTC nowReq.year nowReq.month nowReq.day c.hour c.minute)) ∈ ups) ∧
    (∀ d, req.departureDate ≠ "" → parseDate req.departureDate = some d →
      ("departure_time",
        FieldValue.t (mkUTC d.year d.month d.day c.hour c.minute)) ∈ ups) ∧
    (∀ y mo dd h mi, (mkUTC y mo dd h mi).second = 0 ∧ (mkUTC y mo dd h mi).nsec = 0) := by
  have hs := TicketHandler.buildUpdates_ok_shape req nowReq ups hb
  subst hs
  have hne : req.departureTime ≠ "" := by
    intro h
    rw [h] at hc
    rw [(by decide : parseClock "" = none)] at hc
    cases hc
  refine ⟨?_, ?_, fun y mo dd h mi => ⟨rfl, rfl⟩⟩
  · intro hd0
    rw [stagedList, timeDelta_eq_today req nowReq c hne hc hd0]
    simp [List.mem_append]
  · intro d hd1 hd
    rw [stagedList, timeDelta_eq_newdate req nowReq c d hne hc hd1 hd]
    simp [List.mem_append]

/-- C4 witness: an update supplying only `departure_time = "14:30"`,
with the wall clock at `t0` (2024-07-12), stages the timestamp
2024-07-12T14:30:00Z. -/
theorem c4_time_composition_witness :
    ("departure_time", FieldValue.t (mkUTC 2024 7 12 14 30)) ∈
      [("departure_time", FieldValue.t (mkUTC 2024 7 12 14 30))] :=
  (c4_time_composition timeOnlyRequest t0 ⟨0, 1, 1, 14, 30, 0, 0⟩
    [("departure_time", FieldValue.t (mkUTC 2024 7 12 14 30))]
    (by decide) rfl).1 rfl

/-- C7: the delete handler's soft delete is the update path with
exactly `{status: CANCELLED}` staged plus the system `updated_at`
stamp — at the storage layer, at the staging layer and in its effect
on the store — and cancelling twice succeeds both times, leaving
status CANCELLED. -/
theorem c7_cancel_equivalence_and_idempotence (cid : String)
    (n1 n2 n3 n4 nowReq : GoTime) (store : Store) (t : FlightTicket) :
    FirestoreService.DeleteTicket cid n1 n2 store =
      FirestoreService.UpdateTicket cid [("status", FieldValue.s "CANCELLED")] n2 store ∧
    TicketHandler.buildUpdates cancelRequest nowReq =
      .ok [("status", FieldValue.s "CANCELLED")] ∧
    (TicketHandler.DeleteTicket cid n1 n2 store).2 =
      (TicketHandler.UpdateTicket cid cancelRequest nowReq n2 store).2 ∧
    (store cid = some t →
      (TicketHandler.DeleteTicket cid n1 n2 store).1 = .ok cid ∧
      (TicketHandler.DeleteTicket cid n1 n2 store).2 cid =
        some { t with status := "CANCELLED", updatedAt := n2 } ∧
      (TicketHandler.DeleteTicket cid n3 n4
        (TicketHandler.DeleteTicket cid n1 n2 store).2).1 = .ok cid ∧
      (TicketHandler.DeleteTicket cid n3 n4
        (TicketHandler.DeleteTicket cid n1 n2 store).2).2 cid =
        some { t with status := "CANCELLED", updatedAt := n4 }) := by
  have hsvc : FirestoreService.DeleteTicket cid n1 n2 store =
      FirestoreService.UpdateTicket cid [("status", FieldValue.s "CANCELLED")] n2 store := rfl
  have hbuild : TicketHandler.buildUpdates cancelRequest nowReq =
      .ok [("status", FieldValue.s "CANCELLED")] := rfl
  refine ⟨hsvc, hbuild, ?_, ?_⟩
  · have hrhs : TicketHandler.UpdateTicket cid cancelRequest nowReq n2 store =
        match FirestoreService.UpdateTicket cid [("status", FieldValue.s "CANCELLED")] n2 store with
        | none => (.error .storeFailed, store)
        | some store2 =>
          match FirestoreService.GetTicket cid store2 with
          | none => (.error .retrieveFailed, store2)
          | some tk => (.ok tk, store2) := by
      unfold TicketHandler.UpdateTicket
      simp only [hbuild]
      rw [if_neg (by simp)]
    unfold TicketHandler.DeleteTicket
    rw [hsvc, hrhs]
    cases hu : FirestoreService.UpdateTicket cid [("status", FieldValue.s "CANCELLED")] n2 store with
    | none => rfl
    | some store2 =>
      show store2 = (match FirestoreService.GetTicket cid store2 with
        | none => (Except.error UpdateError.retrieveFailed, store2)
        | some tk => (Except.ok tk, store2)).2
      cases FirestoreService.GetTicket cid store2 with
      | none => rfl
      | some tk => rfl
  · intro hs
    have hdel : ∀ (a b : GoTime) (st : Store) (tk : FlightTicket), st cid = some tk →
        TicketHandler.DeleteTicket cid a b st =
          (.ok cid, fun c => if c = cid then
            some { tk with status := "CANCELLED", updatedAt := b } else st c) := by
      intro a b st tk hst
      unfold TicketHandler.DeleteTicket FirestoreService.DeleteTicket
        FirestoreService.UpdateTicket
      rw [hst]
      rfl
    have h1 := hdel n1 n2 store t hs
    have hs1 : (TicketHandler.DeleteTicket cid n1 n2 store).2 cid =
        some { t with status := "CANCELLED", updatedAt := n2 } := by
      rw [h1]
      simp
    have h2 := hdel n3 n4 (TicketHandler.DeleteTicket cid n1 n2 store).2
      { t with status := "CANCELLED", updatedAt := n2 } hs1
    refine ⟨by rw [h1], hs1, by rw [h2], ?_⟩
    rw [h2]
    simp

/-- C7 witness: cancelling the sample ticket succeeds and sets its
status to CANCELLED. -/
theorem c7_cancel_equivalence_and_idempotence_witness :
    (TicketHandler.DeleteTicket "ABC123" t0 t1 sampleStore).1 = .ok "ABC123" ∧
    (TicketHandler.DeleteTicket "ABC123" t0 t1 sampleStore).2 "ABC123" =
      some { sampleTicket with status := "CANCELLED", updatedAt := t1 } := by
  have h := (c7_cancel_equivalence_and_idempotence "ABC123" t0 t1 t0 t1 t0
    sampleStore sampleTicket).2.2.2 (by decide)
  exact ⟨h.1, h.2.1⟩

theorem foldl_pres_key {α : Type} (f : FlightTicket → α) (key : String)
    (hstep : ∀ tk kv, kv.1 ≠ key → f (applyField tk kv) = f tk)
    (l : List FieldUpdate) (hl : ∀ kv ∈ l, kv.1 ≠ key) (tk : FlightTicket) :
    f (l.foldl applyField tk) = f tk :=
  foldl_applyField_pres (fun kv => kv.1 ≠ key) f hstep l tk hl

theorem originDelta_keys_ne (req : UpdateTicketRequest) (k : String)
    (hk : k ≠ "origin") : ∀ kv ∈ originDelta req, kv.1 ≠ k := by
  intro kv h he
  exact hk (he.symm.trans (mem_originDelta req kv h))

theorem destinationDelta_keys_ne (req : UpdateTicketRequest) (k : String)
    (hk : k ≠ "destination") : ∀ kv ∈ destinationDelta req, kv.1 ≠ k := by
  intro kv h he
  exact hk (he.symm.trans (mem_destinationDelta req kv h))

theorem dateDelta_keys_ne (req : UpdateTicketRequest) (k : String)
    (hk : k ≠ "departure_date") : ∀ kv ∈ dateDelta req, kv.1 ≠ k := by
  intro kv h he
  exact hk (he.symm.trans (mem_dateDelta req kv h))

theorem timeDelta_keys_ne (req : UpdateTicketRequest) (now : GoTime) (k : String)
    (hk : k ≠ "departure_time") : ∀ kv ∈ timeDelta req now, kv.1 ≠ k := by
  intro kv h he
  exact hk (he.symm.trans (mem_timeDelta req now kv h))

theorem flightNumberDelta_keys_ne (req : UpdateTicketRequest) (k : String)
    (hk : k ≠ "flight_number") : ∀ kv ∈ flightNumberDelta req, kv.1 ≠ k := by
  intro kv h he
  exact hk (he.symm.trans (mem_flightNumberDelta req kv h))

theorem passengersDelta_keys_ne (req : UpdateTicketRequest) (k : String)
    (hk : k ≠ "passengers") : ∀ kv ∈ passengersDelta req, kv.1 ≠ k := by
  intro kv h he
  exact hk (he.symm.trans (mem_passengersDelta req kv h))

theorem statusDelta_keys_ne (req : UpdateTicketRequest) (k : String)
    (hk : k ≠ "status") : ∀ kv ∈ statusDelta req, kv.1 ≠ k := by
  intro kv h he
  exact hk (he.symm.trans (mem_statusDelta req kv h))

theorem stagedFold_confirmationID (req : UpdateTicketRequest) (now : GoTime)
    (t : FlightTicket) :
    ((stagedList req now).foldl applyField t).confirmationID = t.confirmationID :=
  foldl_applyField_pres (fun _ => True) FlightTicket.confirmationID
    (fun tk kv _ => applyField_confirmationID tk kv) _ t (fun _ _ => trivial)

theorem stagedFold_createdAt (req : UpdateTicketRequest) (now : GoTime)
    (t : FlightTicket) :
    ((stagedList req now).foldl applyField t).createdAt = t.createdAt :=
  foldl_applyField_pres (fun _ => True) FlightTicket.createdAt
    (fun tk kv _ => applyField_createdAt tk kv) _ t (fun _ _ => trivial)

theorem stagedFold_origin (req : UpdateTicketRequest) (now : GoTime) (t : FlightTicket) :
    ((stagedList req now).foldl applyField t).origin =
      if req.origin = "" then t.origin else req.origin := by
  unfold stagedList
  simp only [List.foldl_append]
  rw [foldl_pres_key FlightTicket.origin "origin" applyField_origin_of_ne
      (statusDelta req) (statusDelta_keys_ne req "origin" (by decide)),
    foldl_pres_key FlightTicket.origin "origin" applyField_origin_of_ne
      (passengersDelta req) (passengersDelta_keys_ne req "origin" (by decide)),
    foldl_pres_key FlightTicket.origin "origin" applyField_origin_of_ne
      (flightNumberDelta req) (flightNumberDelta_keys_ne req "origin" (by decide)),
    foldl_pres_key FlightTicket.origin "origin" applyField_origin_of_ne
      (timeDelta req now) (timeDelta_keys_ne req now "origin" (by decide)),
    foldl_pres_key FlightTicket.origin "origin" applyField_origin_of_ne
      (dateDelta req) (dateDelta_keys_ne req "origin" (by decide)),
    foldl_pres_key FlightTicket.origin "origin" applyField_origin_of_ne
      (destinationDelta req) (destinationDelta_keys_ne req "origin" (by decide))]
  unfold originDelta
  by_cases h : req.origin = "" <;> simp [h, applyField]

theorem stagedFold_destination (req : UpdateTicketRequest) (now : GoTime)
    (t : FlightTicket) :
    ((stagedList req now).foldl applyField t).destination =
      if req.destination = "" then t.destination else req.destination := by
  unfold stagedList
  simp only [List.foldl_append]
  rw [foldl_pres_key FlightTicket.destination "destination" applyField_destination_of_ne
      (statusDelta req) (statusDelta_keys_ne req "destination" (by decide)),
    foldl_pres_key FlightTicket.destination "destination" applyField_destination_of_ne
      (passengersDelta req) (passengersDelta_keys_ne req "destination" (by decide)),
    foldl_pres_key FlightTicket.destination "destination" applyField_destination_of_ne
      (flightNumberDelta req) (flightNumberDelta_keys_ne req "destination" (by decide)),
    foldl_pres_key FlightTicket.destination "destination" applyField_destination_of_ne
      (timeDelta req now) (timeDelta_keys_ne req now "destination" (by decide)),
    foldl_pres_key FlightTicket.destination "destination" applyField_destination_of_ne
      (dateDelta req) (dateDelta_keys_ne req "destination" (by decide))]
  unfold destinationDelta
  by_cases h : req.destination = ""
  · rw [if_pos h]
    simp only [if_pos h, List.foldl_nil]
    exact foldl_pres_key FlightTicket.destination "destination"
      applyField_destination_of_ne (originDelta req)
      (originDelta_keys_ne req "destination" (by decide)) t
  · rw [if_neg h]
    simp only [if_neg h, List.foldl_cons, List.foldl_nil]
    simp [applyField]

theorem stagedFold_departureDate (req : UpdateTicketRequest) (now : GoTime)
    (t : FlightTicket) :
    ((stagedList req now).foldl applyField t).departureDate =
      (if req.departureDate = "" then t.departureDate
       else
        match parseDate req.departureDate with
        | none => t.departureDate
        | some d => d) := by
  unfold stagedList
  simp only [List.foldl_append]
  rw [foldl_pres_key FlightTicket.departureDate "departure_date" applyField_departureDate_of_ne
      (statusDelta req) (statusDelta_keys_ne req "departure_date" (by decide)),
    foldl_pres_key FlightTicket.departureDate "departure_date" applyField_departureDate_of_ne
      (passengersDelta req) (passengersDelta_keys_ne req "departure_date" (by decide)),
    foldl_pres_key FlightTicket.departureDate "departure_date" applyField_departureDate_of_ne
      (flightNumberDelta req) (flightNumberDelta_keys_ne req "departure_date" (by decide)),
    foldl_pres_key FlightTicket.departureDate "departure_date" applyField_departureDate_of_ne
      (timeDelta req now) (timeDelta_keys_ne req now "departure_date" (by decide))]
  have hbase : ((destinationDelta req).foldl applyField
      ((originDelta req).foldl applyField t)).departureDate = t.departureDate := by
    rw [foldl_pres_key FlightTicket.departureDate "departure_date" applyField_departureDate_of_ne
        (destinationDelta req) (destinationDelta_keys_ne req "departure_date" (by decide)),
      foldl_pres_key FlightTicket.departureDate "departure_date" applyField_departureDate_of_ne
        (originDelta req) (originDelta_keys_ne req "departure_date" (by decide))]
  unfold dateDelta
  by_cases h : req.departureDate = ""
  · simp only [if_pos h, List.foldl_nil]
    exact hbase
  · simp only [if_neg h]
    cases hp : parseDate req.departureDate with
    | none =>
      simp only [List.foldl_nil]
      exact hbase
    | some d => simp [applyField]

theorem stagedFold_departureTime_empty (req : UpdateTicketRequest) (now : GoTime)
    (t : FlightTicket) (h : req.departureTime = "") :
    ((stagedList req now).foldl applyField t).departureTime = t.departureTime := by
  have htd : timeDelta req now = [] := by
    unfold timeDelta
    simp [h]
  unfold stagedList
  simp only [List.foldl_append, htd, List.foldl_nil]
  rw [foldl_pres_key FlightTicket.departureTime "departure_time" applyField_departureTime_of_ne
      (statusDelta req) (statusDelta_keys_ne req "departure_time" (by decide)),
    foldl_pres_key FlightTicket.departureTime "departure_time" applyField_departureTime_of_ne
      (passengersDelta req) (passengersDelta_keys_ne req "departure_time" (by decide)),
    foldl_pres_key FlightTicket.departureTime "departure_time" applyField_departureTime_of_ne
      (flightNumberDelta req) (flightNumberDelta_keys_ne req "departure_time" (by decide)),
    foldl_pres_key FlightTicket.departureTime "departure_time" applyField_departureTime_of_ne
      (dateDelta req) (dateDelta_keys_ne req "departure_time" (by decide)),
    foldl_pres_key FlightTicket.departureTime "departure_time" applyField_departureTime_of_ne
      (destinationDelta req) (destinationDelta_keys_ne req "departure_time" (by decide)),
    foldl_pres_key FlightTicket.departureTime "departure_time" applyField_departureTime_of_ne
      (originDelta req) (originDelta_keys_ne req "departure_time" (by decide))]

theorem stagedFold_flightNumber (req : UpdateTicketRequest) (now : GoTime)
    (t : FlightTicket) :
    ((stagedList req now).foldl applyField t).flightNumber =
      if req.flightNumber = "" then t.flightNumber else req.flightNumber := by
  unfold stagedList
  simp only [List.foldl_append]
  rw [foldl_pres_key FlightTicket.flightNumber "flight_number" applyField_flightNumber_of_ne
      (statusDelta req) (statusDelta_keys_ne req "flight_number" (by decide)),
    foldl_pres_key FlightTicket.flightNumber "flight_number" applyField_flightNumber_of_ne
      (passengersDelta req) (passengersDelta_keys_ne req "flight_number" (by decide))]
  have hbase : ((timeDelta req now).foldl applyField ((dateDelta req).foldl applyField
      ((destinationDelta req).foldl applyField
        ((originDelta req).foldl applyField t)))).flightNumber = t.flightNumber := by
    rw [foldl_pres_key FlightTicket.flightNumber "flight_number" applyField_flightNumber_of_ne
        (timeDelta req now) (timeDelta_keys_ne req now "flight_number" (by decide)),
      foldl_pres_key FlightTicket.flightNumber "flight_number" applyField_flightNumber_of_ne
        (dateDelta req) (dateDelta_keys_ne req "flight_number" (by decide)),
      foldl_pres_key FlightTicket.flightNumber "flight_number" applyField_flightNumber_of_ne
        (destinationDelta req) (destinationDelta_keys_ne req "flight_number" (by decide)),
      foldl_pres_key FlightTicket.flightNumber "flight_number" applyField_flightNumber_of_ne
        (originDelta req) (originDelta_keys_ne req "flight_number" (by decide))]
  unfold flightNumberDelta
  by_cases h : req.flightNumber = ""
  · simp only [if_pos h, List.foldl_nil]
    exact hbase
  · simp only [if_neg h, List.foldl_cons, List.foldl_nil]
    simp [applyField]

theorem stagedFold_passengers (req : UpdateTicketRequest) (now : GoTime)
    (t : FlightTicket) :
    ((stagedList req now).foldl applyField t).passengers =
      if 0 < req.passengers then req.passengers else t.passengers := by
  unfold stagedList
  simp only [List.foldl_append]
  rw [foldl_pres_key FlightTicket.passengers "passengers" applyField_passengers_of_ne
      (statusDelta req) (statusDelta_keys_ne req "passengers" (by decide))]
  have hbase : ((flightNumberDelta req).foldl applyField ((timeDelta req now).foldl applyField
      ((dateDelta req).foldl applyField ((destinationDelta req).foldl applyField
        ((originDelta req).foldl applyField t))))).passengers = t.passengers := by
    rw [foldl_pres_key FlightTicket.passengers "passengers" applyField_passengers_of_ne
        (flightNumberDelta req) (flightNumberDelta_keys_ne req "passengers" (by decide)),
      foldl_pres_key FlightTicket.passengers "passengers" applyField_passengers_of_ne
        (timeDelta req now) (timeDelta_keys_ne req now "passengers" (by decide)),
      foldl_pres_key FlightTicket.passengers "passengers" applyField_passengers_of_ne
        (dateDelta req) (dateDelta_keys_ne req "passengers" (by decide)),
      foldl_pres_key FlightTicket.passengers "passengers" applyField_passengers_of_ne
        (destinationDelta req) (destinationDelta_keys_ne req "passengers" (by decide)),
      foldl_pres_key FlightTicket.passengers "passengers" applyField_passengers_of_ne
        (originDelta req) (originDelta_keys_ne req "passengers" (by decide))]
  unfold passengersDelta
  by_cases h : 0 < req.passengers
  · simp only [if_pos h, List.foldl_cons, List.foldl_nil]
    simp [applyField]
  · simp only [if_neg h, List.foldl_nil]
    exact hbase

theorem stagedFold_status (req : UpdateTicketRequest) (now : GoTime)
    (t : FlightTicket) :
    ((stagedList req now).foldl applyField t).status =
      if req.status = "" then t.status else req.status := by
  unfold stagedList
  simp only [List.foldl_append]
  have hbase : ((passengersDelta req).foldl applyField ((flightNumberDelta req).foldl applyField
      ((timeDelta req now).foldl applyField ((dateDelta req).foldl applyField
        ((destinationDelta req).foldl applyField
          ((originDelta req).foldl applyField t)))))).status = t.status := by
    rw [foldl_pres_key FlightTicket.status "status" applyField_status_of_ne
        (passengersDelta req) (passengersDelta_keys_ne req "status" (by decide)),
      foldl_pres_key FlightTicket.status "status" applyField_status_of_ne
        (flightNumberDelta req) (flightNumberDelta_keys_ne req "status" (by decide)),
      foldl_pres_key FlightTicket.status "status" applyField_status_of_ne
        (timeDelta req now) (timeDelta_keys_ne req now "status" (by decide)),
      foldl_pres_key FlightTicket.status "status" applyField_status_of_ne
        (dateDelta req) (dateDelta_keys_ne req "status" (by decide)),
      foldl_pres_key FlightTicket.status "status" applyField_status_of_ne
        (destinationDelta req) (destinationDelta_keys_ne req "status" (by decide)),
      foldl_pres_key FlightTicket.status "status" applyField_status_of_ne
        (originDelta req) (originDelta_keys_ne req "status" (by decide))]
  unfold statusDelta
  by_cases h : req.status = ""
  · simp only [if_pos h, List.foldl_nil]
    exact hbase
  · simp only [if_neg h, List.foldl_cons, List.foldl_nil]
    simp [applyField]

theorem stagedFold_updatedAt (req : UpdateTicketRequest) (now : GoTime)
    (t : FlightTicket) :
    ((stagedList req now).foldl applyField t).updatedAt = t.updatedAt :=
  foldl_pres_key FlightTicket.updatedAt "updated_at" applyField_updatedAt_of_ne
    (stagedList req now) (stagedList_no_updatedAt req now) t

/-- The merged document is the staged-field fold with the
`updated_at` stamp applied last. -/
theorem mergedTicket_stagedList (req : UpdateTicketRequest) (now nowS : GoTime)
    (t : FlightTicket) :
    mergedTicket (stagedList req now) nowS t =
      { (stagedList req now).foldl applyField t with updatedAt := nowS } := by
  unfold mergedTicket
  rw [setKey_updatedAt_of_staged, List.foldl_append]
  rfl

/-- C8: a successful update writes exactly the staged fields plus a
system-stamped `updated_at`; the confirmation id, creation stamp and
every unsupplied field keep their stored values, other documents are
untouched, and an update supplying only `{passengers: 3}` stages
exactly `{passengers: 3}` (the service then adds `updated_at`). -/
theorem c8_update_writes_staged_fields_only (cid : String)
    (req : UpdateTicketRequest) (nowReq nowStamp : GoTime) (store : Store)
    (ups : List FieldUpdate) (t : FlightTicket)
    (hb : TicketHandler.buildUpdates req nowReq = .ok ups)
    (hne : ups ≠ []) (ht : store cid = some t) :
    (TicketHandler.UpdateTicket cid req nowReq nowStamp store).1 =
      .ok (mergedTicket ups nowStamp t) ∧
    (TicketHandler.UpdateTicket cid req nowReq nowStamp store).2 cid =
      some (mergedTicket ups nowStamp t) ∧
    (∀ c2, c2 ≠ cid →
      (TicketHandler.UpdateTicket cid req nowReq nowStamp store).2 c2 = store c2) ∧
    (mergedTicket ups nowStamp t).confirmationID = t.confirmationID ∧
    (mergedTicket ups nowStamp t).createdAt = t.createdAt ∧
    (mergedTicket ups nowStamp t).updatedAt = nowStamp ∧
    (mergedTicket ups nowStamp t).origin =
      (if req.origin = "" then t.origin else req.origin) ∧
    (mergedTicket ups nowStamp t).destination =
      (if req.destination = "" then t.destination else req.destination) ∧
    (req.departureDate = "" →
      (mergedTicket ups nowStamp t).departureDate = t.departureDate) ∧
    (∀ d, req.departureDate ≠ "" → parseDate req.departureDate = some d →
      (mergedTicket ups nowStamp t).departureDate = d) ∧
    (req.departureTime = "" →
      (mergedTicket ups nowStamp t).departureTime = t.departureTime) ∧
    (mergedTicket ups nowStamp t).flightNumber =
      (if req.flightNumber = "" then t.flightNumber else req.flightNumber) ∧
    (mergedTicket ups nowStamp t).passengers =
      (if 0 < req.passengers then req.passengers else t.passengers) ∧
    (mergedTicket ups nowStamp t).status =
      (if req.status = "" then t.status else req.status) ∧
    TicketHandler.buildUpdates passengersOnlyRequest nowReq =
      .ok [("passengers", FieldValue.i 3)] := by
  have hs := TicketHandler.buildUpdates_ok_shape req nowReq ups hb
  subst hs
  have hupd : FirestoreService.UpdateTicket cid (stagedList req nowReq) nowStamp store =
      some (fun c => if c = cid then
        some (mergedTicket (stagedList req nowReq) nowStamp t) else store c) := by
    unfold FirestoreService.UpdateTicket mergedTicket
    rw [ht]
  have hgets : FirestoreService.GetTicket cid (fun c => if c = cid then
      some (mergedTicket (stagedList req nowReq) nowStamp t) else store c) =
      some (mergedTicket (stagedList req nowReq) nowStamp t) := by
    unfold FirestoreService.GetTicket
    simp
  have hH : TicketHandler.UpdateTicket cid req nowReq nowStamp store =
      (.ok (mergedTicket (stagedList req nowReq) nowStamp t),
        fun c => if c = cid then
          some (mergedTicket (stagedList req nowReq) nowStamp t) else store c) := by
    unfold TicketHandler.UpdateTicket
    simp only [hb]
    rw [if_neg hne]
    simp only [hupd, hgets]
  have hmerge := mergedTicket_stagedList req nowReq nowStamp t
  refine ⟨by rw [hH], by rw [hH]; simp, ?_, ?_, ?_, ?_, ?_, ?_, ?_, ?_, ?_, ?_, ?_, ?_, rfl⟩
  · intro c2 hc2
    rw [hH]
    simp [hc2]
  · rw [hmerge]
    exact stagedFold_confirmationID req nowReq t
  · rw [hmerge]
    exact stagedFold_createdAt req nowReq t
  · rw [hmerge]
  · rw [hmerge]
    exact stagedFold_origin req nowReq t
  · rw [hmerge]
    exact stagedFold_destination req nowReq t
  · intro h
    rw [hmerge]
    have := stagedFold_departureDate req nowReq t
    rw [if_pos h] at this
    exact this
  · intro d h1 hd
    rw [hmerge]
    have := stagedFold_departureDate req nowReq t
    rw [if_neg h1, hd] at this
    exact this
  · intro h
    rw [hmerge]
    exact stagedFold_departureTime_empty req nowReq t h
  · rw [hmerge]
    exact stagedFold_flightNumber req nowReq t
  · rw [hmerge]
    exact stagedFold_passengers req nowReq t
  · rw [hmerge]
    exact stagedFold_status req nowReq t

/-- C8 witness: updating the sample ticket with only
`{passengers: 3}` leaves every other field unchanged and stamps
`updated_at`. -/
theorem c8_update_writes_staged_fields_only_witness :
    (TicketHandler.UpdateTicket "ABC123" passengersOnlyRequest t0 t1 sampleStore).2 "ABC123" =
      some { sampleTicket with passengers := 3, updatedAt := t1 } := by
  have h := c8_update_writes_staged_fields_only "ABC123" passengersOnlyRequest t0 t1
    sampleStore [("passengers", FieldValue.i 3)] sampleTicket rfl (by simp) (by decide)
  rw [h.2.1]
  decide

